import Mathlib

/-!
# Verification of the DetachedScrollbar core (src/detached-scrollbar.ts)

A shallow embedding of the `DetachedScrollbar` class. The class holds a
normalized scroll ratio, reads geometry (sizes/offsets) from the DOM on
demand, and writes positional styles, an accessibility attribute and
observer notifications. We model:

* JavaScript numbers at the exact-arithmetic level (`JSNum`): finite values
  are exact rationals, and `NaN`/`±Infinity` are tracked explicitly because
  the source's clamping (`clampAndApply`) relies on their comparison
  behaviour (`NaN < 0` and `NaN > 1` are both false). IEEE-754 rounding of
  finite results and signed zero are outside the model.
* The mutable instance fields as a `State` record.
* DOM reads (`offsetWidth`, `scrollWidth`, `offsetLeft`, ...) as a
  `Geometry` snapshot supplied by the environment to each operation, since
  the source re-reads them on every call.
* DOM writes, listener (de)registrations, callback invocations and timer
  operations as an output trace (`List Out`).
-/

/-- JavaScript number values at the exact-arithmetic level of abstraction:
finite values are exact rationals; NaN and the two infinities are explicit
constructors. -/
inductive JSNum where
  | num : ℚ → JSNum
  | nan : JSNum
  | posInf : JSNum
  | negInf : JSNum
  deriving DecidableEq

namespace JSNum

/-- JS unary minus. -/
def neg : JSNum → JSNum
  | num q => num (-q)
  | nan => nan
  | posInf => negInf
  | negInf => posInf

instance : Neg JSNum := ⟨neg⟩

/-- JS addition (`+`) on numbers: NaN propagates; opposite infinities give NaN. -/
def add : JSNum → JSNum → JSNum
  | nan, _ => nan
  | _, nan => nan
  | num a, num b => num (a + b)
  | posInf, negInf => nan
  | negInf, posInf => nan
  | posInf, _ => posInf
  | _, posInf => posInf
  | negInf, _ => negInf
  | _, negInf => negInf

instance : Add JSNum := ⟨add⟩

/-- JS subtraction, defined as addition of the negation (IEEE equivalent). -/
def sub (a b : JSNum) : JSNum := add a (neg b)

instance : Sub JSNum := ⟨sub⟩

/-- JS multiplication: NaN propagates; `±Infinity × 0 = NaN`; otherwise signs
combine as usual. -/
def mul : JSNum → JSNum → JSNum
  | nan, _ => nan
  | _, nan => nan
  | num a, num b => num (a * b)
  | posInf, num b => if b = 0 then nan else if 0 < b then posInf else negInf
  | num a, posInf => if a = 0 then nan else if 0 < a then posInf else negInf
  | negInf, num b => if b = 0 then nan else if 0 < b then negInf else posInf
  | num a, negInf => if a = 0 then nan else if 0 < a then negInf else posInf
  | posInf, posInf => posInf
  | posInf, negInf => negInf
  | negInf, posInf => negInf
  | negInf, negInf => posInf

instance : Mul JSNum := ⟨mul⟩

/-- JS division: NaN propagates; `x/0` is `NaN` for `x = 0` and a
sign-matching infinity otherwise (the model's zero is `+0`); finite over
infinite is `0`; infinite over infinite is NaN. -/
def div : JSNum → JSNum → JSNum
  | nan, _ => nan
  | _, nan => nan
  | num a, num b =>
      if b = 0 then (if a = 0 then nan else if 0 < a then posInf else negInf)
      else num (a / b)
  | posInf, num b => if 0 ≤ b then posInf else negInf
  | negInf, num b => if 0 ≤ b then negInf else posInf
  | num _, posInf => num 0
  | num _, negInf => num 0
  | posInf, posInf => nan
  | posInf, negInf => nan
  | negInf, posInf => nan
  | negInf, negInf => nan

instance : Div JSNum := ⟨div⟩

/-- JS `<` comparison: any comparison with NaN is false. -/
def lt : JSNum → JSNum → Bool
  | nan, _ => false
  | _, nan => false
  | num a, num b => decide (a < b)
  | num _, posInf => true
  | num _, negInf => false
  | posInf, _ => false
  | negInf, posInf => true
  | negInf, num _ => true
  | negInf, negInf => false

/-- JS `Math.min` (two arguments): NaN if either argument is NaN. -/
def jsMin (a b : JSNum) : JSNum :=
  if a = nan then nan else if b = nan then nan else if lt b a then b else a

/-- JS `Math.max` (two arguments): NaN if either argument is NaN. -/
def jsMax (a b : JSNum) : JSNum :=
  if a = nan then nan else if b = nan then nan else if lt a b then b else a

/-- JS `Math.round`: floor of `x + 1/2` on finite values (rounds half toward
positive infinity, as `Math.round` does). -/
def jsRound : JSNum → JSNum
  | num q => num ((⌊q + 1/2⌋ : ℤ) : ℚ)
  | nan => nan
  | posInf => posInf
  | negInf => negInf

/-- Whether the value is NaN. -/
def isNaN : JSNum → Bool
  | nan => true
  | _ => false

/-- Whether the value is finite. -/
def isFinite : JSNum → Bool
  | num _ => true
  | _ => false

/-- Whether the value is a finite rational in the closed unit interval. -/
def inUnit : JSNum → Bool
  | num q => decide (0 ≤ q ∧ q ≤ 1)
  | _ => false

end JSNum


namespace DetachedScrollbar

open JSNum

/-- Construction-time configuration, after option defaulting
(`direction ?? 'horizontal'`, `keyboardSteps ?? 50`, `trackClick ?? true`,
`autoResize ?? true`). `contentCount` is the length of the resolved
content-element list (assumed non-empty here; the empty case is modelled
separately below for the measurement layer). -/
structure Config where
  horizontal : Bool
  keyboardSteps : ℚ
  trackClick : Bool
  autoResize : Bool
  contentCount : ℕ
  deriving DecidableEq

/-- A snapshot of the DOM reads an operation performs along the active axis:
`trackSize()`, `thumbSize()`, `viewportSize()`, `contentSize()` (the first
content element's scroll size) and `currentThumbPos()` (the thumb's
`offsetLeft`/`offsetTop`, read during drag moves). The browser always
reports finite numbers, so these are rationals. The source re-reads them on
every operation, so each operation takes its own snapshot. -/
structure Geometry where
  trackSize : ℚ
  thumbSize : ℚ
  viewportSize : ℚ
  contentSize : ℚ
  thumbPos : ℚ
  deriving DecidableEq

/-- The mutable instance fields: `_ratio`, `_dragStep`, `_lastPointer`,
`_isDragging`, `_resizeTimer` (abstracted to a pending flag: a fired or
cleared timer is no longer pending) and `_destroyed`. -/
structure State where
  ratio : JSNum
  dragStep : JSNum
  lastPointer : ℚ
  isDragging : Bool
  timerPending : Bool
  destroyed : Bool
  deriving DecidableEq

/-- Externally observable effects: style writes, attribute writes (numeric
attribute values keep the number whose JS string form is written), observer
callbacks, `preventDefault`, focus, listener (de)registration by event name,
and timer scheduling/cancellation. -/
inductive Out where
  | setThumbStyle : String → JSNum → Out
  | setContentStyle : ℕ → String → JSNum → Out
  | setThumbAttrNum : String → JSNum → Out
  | setThumbAttrStr : String → String → Out
  | onScroll : JSNum → Out
  | onDragStart : Out
  | onDragEnd : Out
  | preventDefault : Out
  | focusThumb : Out
  | addListener : String → Out
  | removeListener : String → Out
  | setTimer : Out
  | clearTimer : Out
  deriving DecidableEq

/-- `applyPosition()`: computes the thumb and content pixel positions from
the current ratio and geometry, writes them (one positional style on the
thumb, the same positional value on every content element), updates
`aria-valuenow` to `Math.round(ratio * 100)` and notifies the scroll
observer. It never mutates any instance field. -/
def applyPosition (cfg : Config) (g : Geometry) (s : State) : State × List Out :=
  let thumbPos := s.ratio * (num g.trackSize - num g.thumbSize)
  let contentPos := (-s.ratio) * (num g.contentSize - num g.viewportSize)
  let posOuts :=
    if cfg.horizontal then
      Out.setThumbStyle "left" thumbPos ::
        (List.range cfg.contentCount).map (fun i => Out.setContentStyle i "left" contentPos)
    else
      Out.setThumbStyle "top" thumbPos ::
        (List.range cfg.contentCount).map (fun i => Out.setContentStyle i "top" contentPos)
  (s, posOuts ++ [Out.setThumbAttrNum "aria-valuenow" (jsRound (s.ratio * num 100)),
                  Out.onScroll s.ratio])

/-- The two sequential `if` statements of `clampAndApply()`:
`if (ratio < 0) ratio = 0; if (ratio > 1) ratio = 1`. NaN fails both
comparisons and passes through unchanged. -/
def jsClamp01 (r : JSNum) : JSNum :=
  let r1 := if lt r (num 0) then num 0 else r
  if lt (num 1) r1 then num 1 else r1

/-- `clampAndApply()`: clamps `_ratio` in place, then applies. -/
def clampAndApply (cfg : Config) (g : Geometry) (s : State) : State × List Out :=
  applyPosition cfg g { s with ratio := jsClamp01 s.ratio }

/-- `sizeThumb()`: sets the thumb's extent style to
`trackSize * Math.min(viewportSize / contentSize, 1)` and recomputes
`_dragStep = trackSize / keyboardSteps`. -/
def sizeThumb (cfg : Config) (g : Geometry) (s : State) : State × List Out :=
  let visible := num g.viewportSize / num g.contentSize
  let size := num g.trackSize * jsMin visible (num 1)
  let w := if cfg.horizontal then Out.setThumbStyle "width" size
           else Out.setThumbStyle "height" size
  ({ s with dragStep := num g.trackSize / num cfg.keyboardSteps }, [w])

/-- `scrollTo(ratio)`: assigns `_ratio` directly, then clamps and applies.
Total — no input is rejected. -/
def scrollTo (cfg : Config) (g : Geometry) (s : State) (r : JSNum) : State × List Out :=
  clampAndApply cfg g { s with ratio := r }

/-- `scrollToOffset(offset)`: `_ratio = (offset - vSize/2) / (cSize - vSize)`,
then clamp and apply. The division is not guarded. -/
def scrollToOffset (cfg : Config) (g : Geometry) (s : State) (offset : JSNum) :
    State × List Out :=
  let vSize := num g.viewportSize
  let cSize := num g.contentSize
  let target := offset - vSize / num 2
  clampAndApply cfg g { s with ratio := target / (cSize - vSize) }

/-- `update()`: `sizeThumb()` then `applyPosition()` (no clamping of its own). -/
def update (cfg : Config) (g : Geometry) (s : State) : State × List Out :=
  let r1 := sizeThumb cfg g s
  let r2 := applyPosition cfg g r1.1
  (r2.1, r1.2 ++ r2.2)

/-- `destroy()`: returns immediately when already destroyed; otherwise marks
the instance destroyed, removes every listener (the track-click and resize
ones only if they were registered) and cancels a pending resize timer. -/
def destroy (cfg : Config) (s : State) : State × List Out :=
  if s.destroyed then (s, [])
  else
    ({ s with destroyed := true, timerPending := false },
     [Out.removeListener "mousedown", Out.removeListener "touchstart",
      Out.removeListener "keydown", Out.removeListener "mousemove",
      Out.removeListener "touchmove", Out.removeListener "mouseup",
      Out.removeListener "touchend"]
     ++ (if cfg.trackClick then [Out.removeListener "click"] else [])
     ++ (if cfg.autoResize then [Out.removeListener "resize"] else [])
     ++ (if s.timerPending then [Out.clearTimer] else []))

/-- `handleDown(e)` with `p` the pointer coordinate along the active axis:
prevents default, focuses the thumb, starts the drag session, registers the
document-level move/up listeners and fires the drag-start callback. -/
def handleDown (s : State) (p : ℚ) : State × List Out :=
  ({ s with isDragging := true, lastPointer := p },
   [Out.preventDefault, Out.focusThumb,
    Out.addListener "mousemove", Out.addListener "touchmove",
    Out.addListener "mouseup", Out.addListener "touchend",
    Out.onDragStart])

/-- `handleMove(e)` with `p` the pointer coordinate:
`delta = _lastPointer - p`; `_lastPointer = p`;
`newPos = currentThumbPos() - delta`;
`_ratio = newPos / (trackSize() - thumbSize())`; clamp and apply. -/
def handleMove (cfg : Config) (g : Geometry) (s : State) (p : ℚ) : State × List Out :=
  let delta := s.lastPointer - p
  let newPos := g.thumbPos - delta
  let r := clampAndApply cfg g
    { s with lastPointer := p,
             ratio := num newPos / (num g.trackSize - num g.thumbSize) }
  (r.1, Out.preventDefault :: r.2)

/-- `handleUp()`: ends the drag session, removes the document-level
listeners and fires the drag-end callback. -/
def handleUp (s : State) : State × List Out :=
  ({ s with isDragging := false },
   [Out.removeListener "mousemove", Out.removeListener "touchmove",
    Out.removeListener "mouseup", Out.removeListener "touchend",
    Out.onDragEnd])

/-- `handleKey(e)`: axis-dependent back/forward arrow keys shift `_ratio`
by `_dragStep / (trackSize() - thumbSize())`, Home/End assign 0/1; each
recognized key prevents default and runs one `clampAndApply()`; any other
key does nothing. -/
def handleKey (cfg : Config) (g : Geometry) (s : State) (key : String) :
    State × List Out :=
  let backKey := if cfg.horizontal then "ArrowLeft" else "ArrowUp"
  let fwdKey := if cfg.horizontal then "ArrowRight" else "ArrowDown"
  let step := s.dragStep / (num g.trackSize - num g.thumbSize)
  if key = backKey then
    let r := clampAndApply cfg g { s with ratio := s.ratio - step }
    (r.1, Out.preventDefault :: r.2)
  else if key = fwdKey then
    let r := clampAndApply cfg g { s with ratio := s.ratio + step }
    (r.1, Out.preventDefault :: r.2)
  else if key = "Home" then
    let r := clampAndApply cfg g { s with ratio := num 0 }
    (r.1, Out.preventDefault :: r.2)
  else if key = "End" then
    let r := clampAndApply cfg g { s with ratio := num 1 }
    (r.1, Out.preventDefault :: r.2)
  else (s, [])

/-- `handleTrackClick(e)`: ignored when the click target is the thumb or a
descendant of it (`onThumb`); otherwise `_ratio = clickPos / trackSize()`
where `clickPos` is the click coordinate relative to the track's origin,
then clamp and apply. -/
def handleTrackClick (cfg : Config) (g : Geometry) (s : State)
    (onThumb : Bool) (clickPos : ℚ) : State × List Out :=
  if onThumb then (s, [])
  else clampAndApply cfg g { s with ratio := num clickPos / num g.trackSize }

/-- `handleResize()`: trailing-edge debounce — cancels a pending timer and
schedules a new one. -/
def handleResize (s : State) : State × List Out :=
  ({ s with timerPending := true },
   (if s.timerPending then [Out.clearTimer] else []) ++ [Out.setTimer])

/-- The debounced resize callback body: `sizeThumb()` then `applyPosition()`.
It only runs if the timer was still pending (not cancelled). -/
def resizeTimerFire (cfg : Config) (g : Geometry) (s : State) : State × List Out :=
  let r1 := sizeThumb cfg g { s with timerPending := false }
  let r2 := applyPosition cfg g r1.1
  (r2.1, r1.2 ++ r2.2)

/-- `init()`: conditional accessibility attribute setup (the `hasAttribute`
checks are environment inputs), listener registration, then `sizeThumb()`. -/
def init (cfg : Config) (g : Geometry)
    (hasTabindex hasRole hasAriaLabel : Bool) (s : State) : State × List Out :=
  let a1 := if hasTabindex then [] else [Out.setThumbAttrStr "tabindex" "0"]
  let a2 := if hasRole then [] else
    [Out.setThumbAttrStr "role" "slider",
     Out.setThumbAttrStr "aria-valuemin" "0",
     Out.setThumbAttrStr "aria-valuemax" "100",
     Out.setThumbAttrStr "aria-valuenow" "0"]
  let a3 := if hasAriaLabel then [] else [Out.setThumbAttrStr "aria-label" "Scrollbar"]
  let listeners :=
    [Out.addListener "mousedown", Out.addListener "touchstart", Out.addListener "keydown"]
    ++ (if cfg.trackClick then [Out.addListener "click"] else [])
    ++ (if cfg.autoResize then [Out.addListener "resize"] else [])
  let r := sizeThumb cfg g s
  (r.1, a1 ++ a2 ++ a3 ++ listeners ++ r.2)

/-- Field initializers of the class: `_ratio = 0`, `_dragStep = 0`,
`_lastPointer = 0`, `_isDragging = false`, no timer, not destroyed. -/
def initialState : State :=
  { ratio := num 0, dragStep := num 0, lastPointer := 0,
    isDragging := false, timerPending := false, destroyed := false }

/-- The constructor: field initializers followed by `init()` (on fresh
elements without pre-existing attributes). -/
def construct (cfg : Config) (g : Geometry) : State × List Out :=
  init cfg g false false false initialState

/-- The external stimuli an instance can receive: direct public method
calls and DOM events. Numeric payloads coming from the DOM (pointer
coordinates, click offsets) are finite rationals; API arguments are
arbitrary JS numbers. -/
inductive Event where
  | scrollTo : JSNum → Event
  | scrollToOffset : JSNum → Event
  | update : Event
  | focus : Event
  | destroy : Event
  | down : ℚ → Event
  | move : ℚ → Event
  | up : Event
  | key : String → Event
  | trackClick : Bool → ℚ → Event
  | resize : Event
  | resizeFire : Event
  deriving DecidableEq

/-- One event step. Public methods are callable in every state (the source
does not guard them on `_destroyed`). Handler-driven events are gated by
listener registration: the thumb/track/window listeners exist until
`destroy()`; the document-level move/up listeners exist only during a drag
and are also removed by `destroy()`; the debounce callback fires only while
its timer is pending and not cancelled. -/
def dispatch (cfg : Config) (g : Geometry) (e : Event) (s : State) : State × List Out :=
  match e with
  | .scrollTo r => scrollTo cfg g s r
  | .scrollToOffset x => scrollToOffset cfg g s x
  | .update => update cfg g s
  | .focus => (s, [Out.focusThumb])
  | .destroy => destroy cfg s
  | .down p => if s.destroyed then (s, []) else handleDown s p
  | .move p => if !s.destroyed && s.isDragging then handleMove cfg g s p else (s, [])
  | .up => if !s.destroyed && s.isDragging then handleUp s else (s, [])
  | .key k => if s.destroyed then (s, []) else handleKey cfg g s k
  | .trackClick onThumb pos =>
      if s.destroyed || !cfg.trackClick then (s, [])
      else handleTrackClick cfg g s onThumb pos
  | .resize => if s.destroyed || !cfg.autoResize then (s, []) else handleResize s
  | .resizeFire =>
      if s.destroyed || !s.timerPending then (s, []) else resizeTimerFire cfg g s

/-- Run a sequence of events, each with its own geometry snapshot. -/
def runEvents (cfg : Config) : State → List (Geometry × Event) → State
  | s, [] => s
  | s, p :: rest => runEvents cfg (dispatch cfg p.1 p.2 s).1 rest

/-- The spec's `clamp(r, 0, 1)`, read as JS `Math.max(0, Math.min(1, r))`.
Stated from the spec's words for comparison with the source's
`clampAndApply` clamping (`jsClamp01`). -/
def clampSpec (r : JSNum) : JSNum := jsMax (num 0) (jsMin (num 1) r)

/-- An output is consistent with a final (already clamped) ratio `r`: every
ratio-dependent DOM write — the thumb's positional offset style, the content
elements' positional offset styles, the numeric accessibility attribute —
and the scroll notification carry exactly the value derived from `r`.
Non-ratio outputs (extent styles, listener bookkeeping, ...) are
unconstrained. -/
def usesFinalRatio (g : Geometry) (r : JSNum) : Out → Bool
  | .setThumbStyle prop v =>
      if prop = "left" || prop = "top"
      then decide (v = r * (num g.trackSize - num g.thumbSize)) else true
  | .setContentStyle _ _ v =>
      decide (v = (-r) * (num g.contentSize - num g.viewportSize))
  | .setThumbAttrNum _ v => decide (v = jsRound (r * num 100))
  | .onScroll v => decide (v = r)
  | _ => true

/-- Conditions under which an operation's freshly computed ratio is not NaN:
`scrollTo` input not NaN; `scrollToOffset` input not NaN and overflow
nonzero; drag moves and arrow-key steps with nonzero travel; track clicks
with nonzero track extent. Every other event is unconditional. -/
def admissible (cfg : Config) (g : Geometry) : Event → Bool
  | .scrollTo r => !r.isNaN
  | .scrollToOffset x => !x.isNaN && decide (g.contentSize ≠ g.viewportSize)
  | .move _ => decide (g.trackSize ≠ g.thumbSize)
  | .key k =>
      if k = (if cfg.horizontal then "ArrowLeft" else "ArrowUp")
         || k = (if cfg.horizontal then "ArrowRight" else "ArrowDown")
      then decide (g.trackSize ≠ g.thumbSize) else true
  | .trackClick _ _ => decide (g.trackSize ≠ 0)
  | _ => true

/-- The coordinator's state invariant: the stored ratio is a finite rational
in `[0, 1]` and the stored step size is finite. -/
def RatioInv (s : State) : Prop :=
  inUnit s.ratio = true ∧ s.dragStep.isFinite = true

/-- Events delivered through registered DOM/timer handlers (as opposed to
direct public method calls). -/
def eventDriven : Event → Bool
  | .down _ => true
  | .move _ => true
  | .up => true
  | .key _ => true
  | .trackClick _ _ => true
  | .resize => true
  | .resizeFire => true
  | _ => false

/-- Geometry with the content-element structure kept explicit: the resolved
content list (`resolveContentElements`) may have any length, and each
element has its own scroll size. -/
structure GeometryL where
  trackSize : ℚ
  thumbSize : ℚ
  viewportSize : ℚ
  thumbPos : ℚ
  contentSizes : List ℚ
  deriving DecidableEq

/-- `contentSize()` reads only `contentEls[0]`; with an empty content list
the indexing yields `undefined` and the `scrollWidth`/`scrollHeight` access
throws a TypeError, modelled as `Except.error`. -/
def contentSizeE (gl : GeometryL) : Except String ℚ :=
  match gl.contentSizes with
  | [] => .error "TypeError: contentEls[0] is undefined"
  | c :: _ => .ok c

/-- Measuring the geometry snapshot used by the operations above: it is the
scalar extents plus the FIRST content element's scroll size; it fails when
the content list is empty. -/
def measuredGeometry (gl : GeometryL) : Except String Geometry :=
  (contentSizeE gl).map
    (fun c => ⟨gl.trackSize, gl.thumbSize, gl.viewportSize, c, gl.thumbPos⟩)

/-- `sizeThumb()` through the measurement layer. -/
def sizeThumbE (cfg : Config) (gl : GeometryL) (s : State) :
    Except String (State × List Out) :=
  (measuredGeometry gl).map (fun g => sizeThumb cfg g s)

/-- The constructor through the measurement layer: `init()` invokes
`sizeThumb()`, whose `contentSize()` call is the first content measurement,
so construction itself fails on an empty content list. -/
def constructE (cfg : Config) (gl : GeometryL) : Except String (State × List Out) :=
  (measuredGeometry gl).map (fun g => construct cfg g)

/-- The content pixel position `applyPosition()` writes to every content
element, through the measurement layer. -/
def contentPosE (gl : GeometryL) (r : JSNum) : Except String JSNum :=
  (measuredGeometry gl).map
    (fun g => (-r) * (num g.contentSize - num g.viewportSize))

end DetachedScrollbar
section JSNumLemmas

open JSNum

theorem num_sub_num (a b : ℚ) : (num a) - (num b) = num (a - b) := by
  show sub (num a) (num b) = num (a - b)
  simp [sub, add, neg, sub_eq_add_neg]

theorem num_div_num_ne_zero (a b : ℚ) (hb : b ≠ 0) :
    (num a) / (num b) = num (a / b) := by
  show div (num a) (num b) = num (a / b)
  simp [div, hb]

theorem sub_ne_nan_of_num_right (a : JSNum) (b : ℚ) (ha : a ≠ nan) :
    a - num b ≠ nan := by
  show sub a (num b) ≠ nan
  cases a <;> simp [sub, add, neg] at *

theorem div_num_ne_nan (a : JSNum) (b : ℚ) (ha : a ≠ nan) (hb : b ≠ 0) :
    a / num b ≠ nan := by
  show div a (num b) ≠ nan
  cases a with
  | num a => simp [div, hb]
  | nan => exact absurd rfl ha
  | posInf => simp [div]; split <;> simp
  | negInf => simp [div]; split <;> simp

end JSNumLemmas

namespace DetachedScrollbar

open JSNum

theorem isNaN_eq_false_iff (r : JSNum) : r.isNaN = false ↔ r ≠ nan := by
  cases r <;> simp [isNaN]

theorem isFinite_iff (r : JSNum) : r.isFinite = true ↔ ∃ q, r = num q := by
  cases r <;> simp [isFinite]

theorem inUnit_iff (r : JSNum) :
    inUnit r = true ↔ ∃ q, r = num q ∧ 0 ≤ q ∧ q ≤ 1 := by
  cases r <;> simp [inUnit]

theorem num_mul_num (a b : ℚ) : (num a) * (num b) = num (a * b) := rfl

theorem neg_num (a : ℚ) : -(num a) = num (-a) := rfl

theorem jsMin_num_num (a b : ℚ) :
    jsMin (num a) (num b) = if b < a then num b else num a := by
  simp [jsMin, lt]

theorem jsMax_num_num (a b : ℚ) :
    jsMax (num a) (num b) = if a < b then num b else num a := by
  simp [jsMax, lt]

theorem jsClamp01_num (q : ℚ) :
    jsClamp01 (num q) = if q < 0 then num 0 else if 1 < q then num 1 else num q := by
  by_cases h0 : q < 0
  · have h1 : ¬(1:ℚ) < 0 := by norm_num
    simp [jsClamp01, lt, h0, h1]
  · by_cases h1 : 1 < q <;> simp [jsClamp01, lt, h0, h1]

theorem clampSpec_num (q : ℚ) :
    clampSpec (num q) = if q < 0 then num 0 else if 1 < q then num 1 else num q := by
  rw [clampSpec, jsMin_num_num]
  by_cases h0 : q < 0
  · have hq1 : q < 1 := by linarith
    have hq0 : ¬(0:ℚ) < q := by linarith
    simp [h0, hq1, jsMax_num_num, hq0]
  · by_cases h1 : 1 < q
    · have hq1 : ¬q < 1 := by linarith
      simp [h0, h1, hq1, jsMax_num_num]
    · by_cases hq1 : q < 1
      · by_cases hq0 : 0 < q
        · simp [h0, h1, hq1, jsMax_num_num, hq0]
        · have : q = 0 := le_antisymm (not_lt.1 hq0) (not_lt.1 h0)
          simp [h0, h1, hq1, jsMax_num_num, hq0, this]
          norm_num
      · have : q = 1 := le_antisymm (not_lt.1 h1) (not_lt.1 hq1)
        simp [h0, h1, hq1, jsMax_num_num, this]
        norm_num

/-- The source's two sequential clamping `if`s agree with the spec's
`clamp(r, 0, 1)` read as `Math.max(0, Math.min(1, r))`, on every JS number
including NaN and the infinities. -/
theorem jsClamp01_eq_clampSpec (r : JSNum) : jsClamp01 r = clampSpec r := by
  cases r with
  | num q => rw [jsClamp01_num, clampSpec_num]
  | nan => rfl
  | posInf => rfl
  | negInf => rfl

/-- Clamping any non-NaN value lands in the closed unit interval. -/
theorem inUnit_jsClamp01 (r : JSNum) (h : r ≠ nan) :
    inUnit (jsClamp01 r) = true := by
  cases r with
  | num q =>
      rw [jsClamp01_num]
      split_ifs with h0 h1
      · simp [inUnit]
      · simp [inUnit]
      · simp only [inUnit, decide_eq_true_eq]
        exact ⟨not_lt.1 h0, not_lt.1 h1⟩
  | nan => exact absurd rfl h
  | posInf => rfl
  | negInf => rfl

theorem applyPosition_fst (cfg : Config) (g : Geometry) (s : State) :
    (applyPosition cfg g s).1 = s := rfl

theorem applyPosition_snd (cfg : Config) (g : Geometry) (s : State) :
    (applyPosition cfg g s).2 =
      Out.setThumbStyle (if cfg.horizontal then "left" else "top")
          (s.ratio * (num g.trackSize - num g.thumbSize)) ::
        ((List.range cfg.contentCount).map (fun i =>
          Out.setContentStyle i (if cfg.horizontal then "left" else "top")
            ((-s.ratio) * (num g.contentSize - num g.viewportSize)))
        ++ [Out.setThumbAttrNum "aria-valuenow" (jsRound (s.ratio * num 100)),
            Out.onScroll s.ratio]) := by
  by_cases h : cfg.horizontal <;> simp [applyPosition, h]

theorem clampAndApply_fst (cfg : Config) (g : Geometry) (s : State) :
    (clampAndApply cfg g s).1 = { s with ratio := jsClamp01 s.ratio } := rfl

theorem applyPosition_usesFinalRatio (cfg : Config) (g : Geometry) (s : State) :
    ∀ o ∈ (applyPosition cfg g s).2, usesFinalRatio g s.ratio o = true := by
  intro o ho
  rw [applyPosition_snd] at ho
  simp only [List.mem_cons, List.mem_append, List.mem_map, List.mem_range,
    List.mem_singleton] at ho
  rcases ho with rfl | ⟨i, _, rfl⟩ | rfl | rfl | h <;>
    first
      | exact absurd h (List.not_mem_nil _)
      | by_cases h : cfg.horizontal <;> simp [usesFinalRatio, h]

theorem clampAndApply_usesFinalRatio (cfg : Config) (g : Geometry) (s : State) :
    ∀ o ∈ (clampAndApply cfg g s).2,
      usesFinalRatio g (clampAndApply cfg g s).1.ratio o = true := by
  intro o ho
  rw [clampAndApply_fst]
  exact applyPosition_usesFinalRatio cfg g _ o ho

end DetachedScrollbar

namespace DetachedScrollbar

open JSNum

/-- `handleKey` either ignores the key or runs exactly one
`clampAndApply` cycle prefixed by a `preventDefault`. -/
theorem handleKey_shape (cfg : Config) (g : Geometry) (s : State) (k : String) :
    (∃ s', handleKey cfg g s k =
        ((clampAndApply cfg g s').1, Out.preventDefault :: (clampAndApply cfg g s').2)) ∨
    handleKey cfg g s k = (s, []) := by
  simp only [handleKey]
  split_ifs <;> first | (left; exact ⟨_, rfl⟩) | (right; rfl)

end DetachedScrollbar

namespace DetachedScrollbar

open JSNum

/-- `handleKey` never changes the stored step size. -/
theorem handleKey_dragStep (cfg : Config) (g : Geometry) (s : State) (k : String) :
    (handleKey cfg g s k).1.dragStep = s.dragStep := by
  simp only [handleKey]
  split_ifs <;> rfl

/-- Case analysis of `handleKey`'s effect on the stored ratio. -/
theorem handleKey_ratio (cfg : Config) (g : Geometry) (s : State) (k : String) :
    (handleKey cfg g s k).1.ratio = s.ratio ∨
    (handleKey cfg g s k).1.ratio = jsClamp01 (num 0) ∨
    (handleKey cfg g s k).1.ratio = jsClamp01 (num 1) ∨
    ((k = (if cfg.horizontal then "ArrowLeft" else "ArrowUp") ∨
      k = (if cfg.horizontal then "ArrowRight" else "ArrowDown")) ∧
     ((handleKey cfg g s k).1.ratio =
        jsClamp01 (s.ratio - s.dragStep / (num g.trackSize - num g.thumbSize)) ∨
      (handleKey cfg g s k).1.ratio =
        jsClamp01 (s.ratio + s.dragStep / (num g.trackSize - num g.thumbSize)))) := by
  simp only [handleKey]
  split_ifs <;>
    first
      | exact Or.inl rfl
      | exact Or.inr (Or.inl rfl)
      | exact Or.inr (Or.inr (Or.inl rfl))
      | (refine Or.inr (Or.inr (Or.inr ⟨?_, Or.inl rfl⟩)); simp_all)
      | (refine Or.inr (Or.inr (Or.inr ⟨?_, Or.inr rfl⟩)); simp_all)

theorem num_add_num (a b : ℚ) : (num a) + (num b) = num (a + b) := rfl

/-- An arrow-key event is admissible only with nonzero travel. -/
theorem admissible_key_travel (cfg : Config) (g : Geometry) (k : String)
    (he : admissible cfg g (.key k) = true)
    (hk : k = (if cfg.horizontal then "ArrowLeft" else "ArrowUp") ∨
          k = (if cfg.horizontal then "ArrowRight" else "ArrowDown")) :
    g.trackSize ≠ g.thumbSize := by
  have h'' := he
  simp only [admissible] at h''
  rcases hk with hk | hk <;> rw [hk] at h'' <;> cases hh : cfg.horizontal <;>
    simp [hh] at h'' <;> exact h''

/-- Single-step preservation of the ratio invariant: from any state
satisfying it, any admissible event leaves the stored ratio in `[0, 1]` and
the stored step size finite. -/
theorem dispatch_preserves_RatioInv (cfg : Config) (g : Geometry) (e : Event)
    (s : State) (hks : cfg.keyboardSteps ≠ 0) (hs : RatioInv s)
    (he : admissible cfg g e = true) :
    RatioInv (dispatch cfg g e s).1 := by
  obtain ⟨hs1, hs2⟩ := hs
  obtain ⟨q, hq, hq0, hq1⟩ := (inUnit_iff s.ratio).1 hs1
  obtain ⟨d, hdg⟩ := (isFinite_iff s.dragStep).1 hs2
  cases e with
  | scrollTo r =>
      have hr : r ≠ nan := by
        have h' : (!r.isNaN) = true := he
        exact (isNaN_eq_false_iff r).1 (by simpa using h')
      exact ⟨inUnit_jsClamp01 r hr, hs2⟩
  | scrollToOffset x =>
      have h' : (!x.isNaN && decide (g.contentSize ≠ g.viewportSize)) = true := he
      rw [Bool.and_eq_true] at h'
      have hx : x ≠ nan := (isNaN_eq_false_iff x).1 (by simpa using h'.1)
      have hcv : g.contentSize ≠ g.viewportSize := of_decide_eq_true h'.2
      refine ⟨?_, hs2⟩
      show inUnit (jsClamp01
        ((x - num g.viewportSize / num 2) / (num g.contentSize - num g.viewportSize))) = true
      rw [num_div_num_ne_zero _ _ (by norm_num : (2:ℚ) ≠ 0), num_sub_num]
      exact inUnit_jsClamp01 _
        (div_num_ne_nan _ _ (sub_ne_nan_of_num_right x _ hx) (sub_ne_zero_of_ne hcv))
  | update =>
      refine ⟨hs1, ?_⟩
      show (num g.trackSize / num cfg.keyboardSteps).isFinite = true
      rw [num_div_num_ne_zero _ _ hks]
      rfl
  | focus => exact ⟨hs1, hs2⟩
  | destroy =>
      show RatioInv (destroy cfg s).1
      simp only [destroy]
      cases hd : s.destroyed
      · exact ⟨hs1, hs2⟩
      · exact ⟨hs1, hs2⟩
  | down p =>
      simp only [dispatch]
      cases hd : s.destroyed
      · exact ⟨hs1, hs2⟩
      · exact ⟨hs1, hs2⟩
  | move p =>
      have htr : g.trackSize ≠ g.thumbSize := of_decide_eq_true he
      simp only [dispatch]
      cases hd : s.destroyed
      · cases hdr : s.isDragging
        · exact ⟨hs1, hs2⟩
        · refine ⟨?_, hs2⟩
          show inUnit (jsClamp01
            (num (g.thumbPos - (s.lastPointer - p)) / (num g.trackSize - num g.thumbSize))) = true
          rw [num_sub_num, num_div_num_ne_zero _ _ (sub_ne_zero_of_ne htr)]
          exact inUnit_jsClamp01 _ (by simp)
      · exact ⟨hs1, hs2⟩
  | up =>
      simp only [dispatch]
      cases hd : s.destroyed
      · cases hdr : s.isDragging
        · exact ⟨hs1, hs2⟩
        · exact ⟨hs1, hs2⟩
      · exact ⟨hs1, hs2⟩
  | key k =>
      simp only [dispatch]
      cases hd : s.destroyed
      · refine ⟨?_, ?_⟩
        · show inUnit (handleKey cfg g s k).1.ratio = true
          rcases handleKey_ratio cfg g s k with h | h | h | ⟨hk, h⟩
          · rw [h]; exact hs1
          · rw [h]; exact inUnit_jsClamp01 _ (by simp)
          · rw [h]; exact inUnit_jsClamp01 _ (by simp)
          · have htr : g.trackSize ≠ g.thumbSize := admissible_key_travel cfg g k he hk
            rcases h with h | h <;> rw [h, hq, hdg]
            · rw [show num g.trackSize - num g.thumbSize
                    = num (g.trackSize - g.thumbSize) from num_sub_num _ _,
                num_div_num_ne_zero _ _ (sub_ne_zero_of_ne htr), num_sub_num]
              exact inUnit_jsClamp01 _ (by simp)
            · rw [show num g.trackSize - num g.thumbSize
                    = num (g.trackSize - g.thumbSize) from num_sub_num _ _,
                num_div_num_ne_zero _ _ (sub_ne_zero_of_ne htr), num_add_num]
              exact inUnit_jsClamp01 _ (by simp)
        · show (handleKey cfg g s k).1.dragStep.isFinite = true
          rw [handleKey_dragStep]
          exact hs2
      · exact ⟨hs1, hs2⟩
  | trackClick onThumb pos =>
      have htr : g.trackSize ≠ 0 := of_decide_eq_true he
      simp only [dispatch]
      cases hd : s.destroyed
      · cases hc : cfg.trackClick
        · exact ⟨hs1, hs2⟩
        · show RatioInv (handleTrackClick cfg g s onThumb pos).1
          simp only [handleTrackClick]
          cases ht : onThumb
          · refine ⟨?_, hs2⟩
            show inUnit (jsClamp01 (num pos / num g.trackSize)) = true
            rw [num_div_num_ne_zero _ _ htr]
            exact inUnit_jsClamp01 _ (by simp)
          · exact ⟨hs1, hs2⟩
      · exact ⟨hs1, hs2⟩
  | resize =>
      simp only [dispatch]
      cases hd : s.destroyed
      · cases ha : cfg.autoResize
        · exact ⟨hs1, hs2⟩
        · exact ⟨hs1, hs2⟩
      · exact ⟨hs1, hs2⟩
  | resizeFire =>
      simp only [dispatch]
      cases hd : s.destroyed
      · cases ht : s.timerPending
        · exact ⟨hs1, hs2⟩
        · refine ⟨hs1, ?_⟩
          show (num g.trackSize / num cfg.keyboardSteps).isFinite = true
          rw [num_div_num_ne_zero _ _ hks]
          rfl
      · exact ⟨hs1, hs2⟩

/-- All of `destroy`'s outputs are listener/timer bookkeeping, never
ratio-dependent DOM writes. -/
theorem destroy_outs_usesFinalRatio (cfg : Config) (s : State) (g : Geometry)
    (r : JSNum) : ∀ o ∈ (destroy cfg s).2, usesFinalRatio g r o = true := by
  cases hd : s.destroyed
  · cases h1 : cfg.trackClick <;> cases h2 : cfg.autoResize <;>
      cases h3 : s.timerPending <;>
      simp [destroy, hd, h1, h2, h3, usesFinalRatio, List.forall_mem_cons]
  · simp [destroy, hd]

/-- Every output an operation emits is consistent with the operation's final
(post-clamp) ratio: ratio-dependent DOM writes and the scroll notification
are computed from the already clamped stored value. -/
theorem dispatch_writes_usesFinalRatio (cfg : Config) (g : Geometry)
    (e : Event) (s : State) :
    ∀ o ∈ (dispatch cfg g e s).2,
      usesFinalRatio g (dispatch cfg g e s).1.ratio o = true := by
  cases e with
  | scrollTo r => exact clampAndApply_usesFinalRatio cfg g _
  | scrollToOffset x => exact clampAndApply_usesFinalRatio cfg g _
  | update =>
      intro o ho
      have hsplit : (dispatch cfg g .update s).2
          = (sizeThumb cfg g s).2 ++ (applyPosition cfg g (sizeThumb cfg g s).1).2 := rfl
      rw [hsplit, List.mem_append] at ho
      show usesFinalRatio g ((sizeThumb cfg g s).1).ratio o = true
      rcases ho with ho | ho
      · cases hh : cfg.horizontal <;> simp [sizeThumb, hh] at ho <;>
          rw [ho] <;> rfl
      · exact applyPosition_usesFinalRatio cfg g _ o ho
  | focus =>
      intro o ho
      have h : o ∈ [Out.focusThumb] := ho
      simp at h
      rw [h]; rfl
  | destroy => exact destroy_outs_usesFinalRatio cfg s g _
  | down p =>
      intro o ho
      have ho' : o ∈ (if s.destroyed then (s, ([] : List Out)) else handleDown s p).2 := ho
      show usesFinalRatio g
        (if s.destroyed then (s, []) else handleDown s p).1.ratio o = true
      clear ho
      revert ho'
      cases hd : s.destroyed
      · intro ho'
        have ho'' : o ∈ (handleDown s p).2 := ho'
        simp [handleDown] at ho''
        rcases ho'' with rfl | rfl | rfl | rfl | rfl | rfl | rfl <;> rfl
      · intro ho'
        exact absurd (show o ∈ ([] : List Out) from ho') (List.not_mem_nil o)
  | move p =>
      intro o ho
      have ho' : o ∈ (if !s.destroyed && s.isDragging
          then handleMove cfg g s p else (s, ([] : List Out))).2 := ho
      show usesFinalRatio g
        (if !s.destroyed && s.isDragging then handleMove cfg g s p else (s, [])).1.ratio o = true
      clear ho
      revert ho'
      cases hd : s.destroyed
      · cases hdr : s.isDragging
        · intro ho'
          exact absurd (show o ∈ ([] : List Out) from ho') (List.not_mem_nil o)
        · intro ho'
          have ho'' : o ∈ Out.preventDefault :: (clampAndApply cfg g
              { s with
                lastPointer := p,
                ratio := (num (g.thumbPos - (s.lastPointer - p))
                  / (num g.trackSize - num g.thumbSize)) }).2 := ho'
          show usesFinalRatio g (clampAndApply cfg g
              { s with
                lastPointer := p,
                ratio := (num (g.thumbPos - (s.lastPointer - p))
                  / (num g.trackSize - num g.thumbSize)) }).1.ratio o = true
          rcases List.mem_cons.1 ho'' with rfl | hmem
          · rfl
          · exact clampAndApply_usesFinalRatio cfg g _ o hmem
      · intro ho'
        exact absurd (show o ∈ ([] : List Out) from ho') (List.not_mem_nil o)
  | up =>
      intro o ho
      have ho' : o ∈ (if !s.destroyed && s.isDragging
          then handleUp s else (s, ([] : List Out))).2 := ho
      show usesFinalRatio g
        (if !s.destroyed && s.isDragging then handleUp s else (s, [])).1.ratio o = true
      clear ho
      revert ho'
      cases hd : s.destroyed
      · cases hdr : s.isDragging
        · intro ho'
          exact absurd (show o ∈ ([] : List Out) from ho') (List.not_mem_nil o)
        · intro ho'
          have ho'' : o ∈ (handleUp s).2 := ho'
          simp [handleUp] at ho''
          rcases ho'' with rfl | rfl | rfl | rfl | rfl <;> rfl
      · intro ho'
        exact absurd (show o ∈ ([] : List Out) from ho') (List.not_mem_nil o)
  | key k =>
      intro o ho
      have ho' : o ∈ (if s.destroyed then (s, ([] : List Out))
          else handleKey cfg g s k).2 := ho
      show usesFinalRatio g
        (if s.destroyed then (s, []) else handleKey cfg g s k).1.ratio o = true
      clear ho
      revert ho'
      cases hd : s.destroyed
      · intro ho'
        rcases handleKey_shape cfg g s k with ⟨s', hk⟩ | hk
        · have ho'' : o ∈ (handleKey cfg g s k).2 := ho'
          rw [hk] at ho''
          show usesFinalRatio g (handleKey cfg g s k).1.ratio o = true
          rw [hk]
          rcases List.mem_cons.1 ho'' with rfl | hmem
          · rfl
          · exact clampAndApply_usesFinalRatio cfg g s' o hmem
        · have ho'' : o ∈ (handleKey cfg g s k).2 := ho'
          rw [hk] at ho''
          exact absurd ho'' (List.not_mem_nil o)
      · intro ho'
        exact absurd (show o ∈ ([] : List Out) from ho') (List.not_mem_nil o)
  | trackClick onThumb pos =>
      intro o ho
      have ho' : o ∈ (if s.destroyed || !cfg.trackClick then (s, ([] : List Out))
          else handleTrackClick cfg g s onThumb pos).2 := ho
      show usesFinalRatio g (if s.destroyed || !cfg.trackClick then (s, [])
          else handleTrackClick cfg g s onThumb pos).1.ratio o = true
      clear ho
      revert ho'
      cases hd : s.destroyed
      · cases hc : cfg.trackClick
        · intro ho'
          exact absurd (show o ∈ ([] : List Out) from ho') (List.not_mem_nil o)
        · intro ho'
          show usesFinalRatio g (handleTrackClick cfg g s onThumb pos).1.ratio o = true
          have ho'' : o ∈ (handleTrackClick cfg g s onThumb pos).2 := ho'
          revert ho''
          cases ht : onThumb
          · intro ho''
            have hm : o ∈ (clampAndApply cfg g
                { s with ratio := (num pos / num g.trackSize) }).2 := ho''
            show usesFinalRatio g (clampAndApply cfg g
                { s with ratio := (num pos / num g.trackSize) }).1.ratio o = true
            exact clampAndApply_usesFinalRatio cfg g _ o hm
          · intro ho''
            exact absurd (show o ∈ ([] : List Out) from ho'') (List.not_mem_nil o)
      · intro ho'
        exact absurd (show o ∈ ([] : List Out) from ho') (List.not_mem_nil o)
  | resize =>
      intro o ho
      have ho' : o ∈ (if s.destroyed || !cfg.autoResize then (s, ([] : List Out))
          else handleResize s).2 := ho
      show usesFinalRatio g (if s.destroyed || !cfg.autoResize then (s, [])
          else handleResize s).1.ratio o = true
      clear ho
      revert ho'
      cases hd : s.destroyed
      · cases ha : cfg.autoResize
        · intro ho'
          exact absurd (show o ∈ ([] : List Out) from ho') (List.not_mem_nil o)
        · intro ho'
          have ho'' : o ∈ (handleResize s).2 := ho'
          revert ho''
          cases ht : s.timerPending
          · intro ho''
            simp [handleResize, ht] at ho''
            rw [ho'']; rfl
          · intro ho''
            simp [handleResize, ht] at ho''
            rcases ho'' with rfl | rfl <;> rfl
      · intro ho'
        exact absurd (show o ∈ ([] : List Out) from ho') (List.not_mem_nil o)
  | resizeFire =>
      intro o ho
      have ho' : o ∈ (if s.destroyed || !s.timerPending then (s, ([] : List Out))
          else resizeTimerFire cfg g s).2 := ho
      show usesFinalRatio g (if s.destroyed || !s.timerPending then (s, [])
          else resizeTimerFire cfg g s).1.ratio o = true
      clear ho
      revert ho'
      cases hd : s.destroyed
      · cases ht : s.timerPending
        · intro ho'
          exact absurd (show o ∈ ([] : List Out) from ho') (List.not_mem_nil o)
        · intro ho'
          have ho'' : o ∈ (sizeThumb cfg g { s with timerPending := false }).2
              ++ (applyPosition cfg g
                  (sizeThumb cfg g { s with timerPending := false }).1).2 := ho'
          rw [List.mem_append] at ho''
          show usesFinalRatio g
            ((sizeThumb cfg g { s with timerPending := false }).1).ratio o = true
          rcases ho'' with ho'' | ho''
          · cases hh : cfg.horizontal <;> simp [sizeThumb, hh] at ho'' <;>
              rw [ho''] <;> rfl
          · exact applyPosition_usesFinalRatio cfg g _ o ho''
      · intro ho'
        exact absurd (show o ∈ ([] : List Out) from ho') (List.not_mem_nil o)

end DetachedScrollbar

namespace DetachedScrollbar

open JSNum

/-- The constructor establishes the ratio invariant (for a nonzero
configured step count). -/
theorem construct_RatioInv (cfg : Config) (g : Geometry)
    (hks : cfg.keyboardSteps ≠ 0) : RatioInv (construct cfg g).1 := by
  refine ⟨rfl, ?_⟩
  show (num g.trackSize / num cfg.keyboardSteps).isFinite = true
  rw [num_div_num_ne_zero _ _ hks]
  rfl

/-- Running any admissible event sequence preserves the ratio invariant. -/
theorem runEvents_preserves_RatioInv (cfg : Config)
    (hks : cfg.keyboardSteps ≠ 0) :
    ∀ (evs : List (Geometry × Event)) (s : State), RatioInv s →
      (∀ p ∈ evs, admissible cfg p.1 p.2 = true) →
      RatioInv (runEvents cfg s evs)
  | [], _, hs, _ => hs
  | p :: rest, s, hs, hadm =>
      runEvents_preserves_RatioInv cfg hks rest _
        (dispatch_preserves_RatioInv cfg p.1 p.2 s hks hs
          (hadm p (List.mem_cons_self p rest)))
        (fun q hq => hadm q (List.mem_cons_of_mem p hq))

end DetachedScrollbar

open JSNum DetachedScrollbar

/-- C1 (amended): starting from construction, for every sequence of public
operations whose computed ratios are never NaN — `scrollTo` input not NaN;
`scrollToOffset` input not NaN with overflow ≠ 0; drag moves and arrow-key
steps with travel ≠ 0; track clicks with track extent ≠ 0 — after every
prefix of the sequence the coordinator's ratio is a finite value with
`0 ≤ ratio ≤ 1`, and every ratio-dependent DOM write performed by each
operation carries the value derived from that operation's final (clamped)
ratio, i.e. the clamp precedes the DOM writes. -/
theorem c1_ratio_invariant_amended (cfg : Config) (g0 : Geometry)
    (hks : cfg.keyboardSteps ≠ 0) (evs : List (Geometry × Event))
    (hadm : ∀ p ∈ evs, admissible cfg p.1 p.2 = true) :
    (∀ pre suf : List (Geometry × Event), evs = pre ++ suf →
        inUnit (runEvents cfg (construct cfg g0).1 pre).ratio = true) ∧
    (∀ (pre suf : List (Geometry × Event)) (g : Geometry) (e : Event),
        evs = pre ++ (g, e) :: suf →
        ∀ o ∈ (dispatch cfg g e (runEvents cfg (construct cfg g0).1 pre)).2,
          usesFinalRatio g
            (dispatch cfg g e (runEvents cfg (construct cfg g0).1 pre)).1.ratio
            o = true) := by
  constructor
  · intro pre suf hsplit
    have hadm' : ∀ p ∈ pre, admissible cfg p.1 p.2 = true := fun p hp =>
      hadm p (hsplit ▸ List.mem_append_left suf hp)
    exact (runEvents_preserves_RatioInv cfg hks pre (construct cfg g0).1
      (construct_RatioInv cfg g0 hks) hadm').1
  · intro pre suf g e hsplit
    exact dispatch_writes_usesFinalRatio cfg g e _

/-- C1 (counterexample): with every numeric input allowed, the stated
invariant fails — `scrollTo(NaN)` completes with the stored ratio equal to
NaN, which does not satisfy `0 ≤ ratio ≤ 1` (the clamp's two comparisons
are both false on NaN, so NaN passes through unchanged). -/
theorem c1_counterexample_scrollTo_nan :
    inUnit (runEvents ⟨true, 50, true, true, 1⟩
      (construct ⟨true, 50, true, true, 1⟩ ⟨200, 20, 100, 300, 0⟩).1
      [(⟨200, 20, 100, 300, 0⟩, .scrollTo JSNum.nan)]).ratio = false := by
  decide

/-- C1 (witness): the amended invariant instantiated on a concrete
configuration and the one-event sequence `scrollTo 2`. -/
theorem c1_witness :
    ((⟨true, 50, true, true, 1⟩ : Config).keyboardSteps ≠ 0) ∧
    (∀ p ∈ [((⟨200, 20, 100, 300, 0⟩ : Geometry), Event.scrollTo (num 2))],
        admissible ⟨true, 50, true, true, 1⟩ p.1 p.2 = true) ∧
    ((∀ pre suf : List (Geometry × Event),
        [((⟨200, 20, 100, 300, 0⟩ : Geometry), Event.scrollTo (num 2))] = pre ++ suf →
        inUnit (runEvents ⟨true, 50, true, true, 1⟩
          (construct ⟨true, 50, true, true, 1⟩ ⟨200, 20, 100, 300, 0⟩).1 pre).ratio = true) ∧
     (∀ (pre suf : List (Geometry × Event)) (g : Geometry) (e : Event),
        [((⟨200, 20, 100, 300, 0⟩ : Geometry), Event.scrollTo (num 2))] = pre ++ (g, e) :: suf →
        ∀ o ∈ (dispatch ⟨true, 50, true, true, 1⟩ g e
            (runEvents ⟨true, 50, true, true, 1⟩
              (construct ⟨true, 50, true, true, 1⟩ ⟨200, 20, 100, 300, 0⟩).1 pre)).2,
          usesFinalRatio g
            (dispatch ⟨true, 50, true, true, 1⟩ g e
              (runEvents ⟨true, 50, true, true, 1⟩
                (construct ⟨true, 50, true, true, 1⟩ ⟨200, 20, 100, 300, 0⟩).1 pre)).1.ratio
            o = true)) :=
  ⟨by norm_num, by decide,
   c1_ratio_invariant_amended ⟨true, 50, true, true, 1⟩ ⟨200, 20, 100, 300, 0⟩
     (by norm_num) _ (by decide)⟩

theorem jsRound_num (a : ℚ) :
    jsRound (num a) = num ((⌊a + 1/2⌋ : ℤ) : ℚ) := rfl

/-- C2: for any ratio `r = num q` with `0 ≤ q ≤ 1` and any geometry snapshot,
`applyPosition` leaves the whole state (in particular the stored ratio)
unchanged and emits exactly: the thumb positional offset write with value
`q × (trackExtent − thumbExtent)`, one content positional offset write per
content element, all with the same value `−q × (contentExtent −
viewportExtent)`, the accessibility value attribute set to
`round(q × 100)`, and the scroll-observer notification with `q`. -/
theorem c2_applyPosition_spec (cfg : Config) (g : Geometry) (s : State) (q : ℚ)
    (hr : s.ratio = num q) (h0 : 0 ≤ q) (h1 : q ≤ 1) :
    (applyPosition cfg g s).1 = s ∧
    (applyPosition cfg g s).2 =
      Out.setThumbStyle (if cfg.horizontal then "left" else "top")
          (num (q * (g.trackSize - g.thumbSize))) ::
        ((List.range cfg.contentCount).map (fun i =>
          Out.setContentStyle i (if cfg.horizontal then "left" else "top")
            (num (-q * (g.contentSize - g.viewportSize))))
        ++ [Out.setThumbAttrNum "aria-valuenow"
              (num ((⌊q * 100 + 1/2⌋ : ℤ) : ℚ)),
            Out.onScroll (num q)]) := by
  refine ⟨applyPosition_fst cfg g s, ?_⟩
  rw [applyPosition_snd, hr]
  simp only [num_sub_num, neg_num, num_mul_num, jsRound_num]

/-- C2 (witness): a concrete instantiation with ratio 1/2, horizontal axis
and two content elements. -/
theorem c2_witness :
    (({ ratio := num (1/2), dragStep := num 4, lastPointer := 0,
        isDragging := false, timerPending := false,
        destroyed := false } : State).ratio = num (1/2)) ∧
    (0 ≤ (1/2 : ℚ)) ∧ ((1/2 : ℚ) ≤ 1) ∧
    ((applyPosition ⟨true, 50, true, true, 2⟩ ⟨200, 20, 100, 300, 0⟩
        { ratio := num (1/2), dragStep := num 4, lastPointer := 0,
          isDragging := false, timerPending := false, destroyed := false }).1
      = { ratio := num (1/2), dragStep := num 4, lastPointer := 0,
          isDragging := false, timerPending := false, destroyed := false } ∧
     (applyPosition ⟨true, 50, true, true, 2⟩ ⟨200, 20, 100, 300, 0⟩
        { ratio := num (1/2), dragStep := num 4, lastPointer := 0,
          isDragging := false, timerPending := false, destroyed := false }).2
      = Out.setThumbStyle
            (if (⟨true, 50, true, true, 2⟩ : Config).horizontal then "left" else "top")
            (num ((1/2 : ℚ) * ((200:ℚ) - 20))) ::
          ((List.range (⟨true, 50, true, true, 2⟩ : Config).contentCount).map (fun i =>
            Out.setContentStyle i
              (if (⟨true, 50, true, true, 2⟩ : Config).horizontal then "left" else "top")
              (num (-(1/2 : ℚ) * ((300:ℚ) - 100))))
          ++ [Out.setThumbAttrNum "aria-valuenow"
                (num ((⌊(1/2 : ℚ) * 100 + 1/2⌋ : ℤ) : ℚ)),
              Out.onScroll (num (1/2))])) :=
  ⟨rfl, by norm_num, by norm_num,
   c2_applyPosition_spec ⟨true, 50, true, true, 2⟩ ⟨200, 20, 100, 300, 0⟩
     { ratio := num (1/2), dragStep := num 4, lastPointer := 0,
       isDragging := false, timerPending := false, destroyed := false }
     (1/2) rfl (by norm_num) (by norm_num)⟩

/-- C3: for every JS-number input `r` — in range, out of range, infinite or
NaN — `scrollTo(r)` is a total operation (the model raises no error) and the
stored ratio afterwards is exactly `clamp(r, 0, 1)` in JS `Math.max(0,
Math.min(1, r))` semantics: finite values clamp to `[0,1]`, `+∞` to 1, `−∞`
to 0, and NaN maps to NaN (clamp of NaN is NaN). -/
theorem c3_scrollTo_clamps (cfg : Config) (g : Geometry) (s : State) (r : JSNum) :
    (scrollTo cfg g s r).1.ratio = clampSpec r := by
  show jsClamp01 r = clampSpec r
  exact jsClamp01_eq_clampSpec r

/-- C4: the guard the claim requires is absent from the code. With
`contentExtent = viewportExtent = 100` (overflow zero, a valid common
state) and `scrollToOffset(50)`, the code computes
`(50 − 100/2) / (100 − 100) = 0/0 = NaN`; the clamp passes NaN through, so
the stored ratio is NaN rather than a pinned no-op value. -/
theorem c4_scrollToOffset_stores_nan :
    (scrollToOffset ⟨true, 50, true, true, 1⟩ ⟨200, 20, 100, 100, 0⟩
      initialState (num 50)).1.ratio = JSNum.nan := by
  norm_num [scrollToOffset, clampAndApply, applyPosition, jsClamp01,
    num_div_num_ne_zero, num_sub_num, HDiv.hDiv, Div.div, HSub.hSub, Sub.sub,
    JSNum.div, JSNum.sub, JSNum.add, JSNum.neg, JSNum.lt]

/-- C5 (counterexample): the claim's formula has the sign reversed, and the
zero-travel guard it asserts does not exist. First: with travel = 100,
ratio 1/2 (thumb at 50), a move from p0 = 0 to p1 = 10 produces ratio 3/5,
whereas the claim's `clamp(r0 + (p0 − p1)/travel)` is 2/5. Second: with
travel = 0 the same move is not a no-op — the division `10/0 = +∞` clamps
to 1, changing the ratio from 1/2 to 1. -/
theorem c5_counterexample_move :
    ((dispatch ⟨true, 50, true, true, 1⟩ ⟨110, 10, 100, 300, 50⟩ (.move 10)
        { ratio := num (1/2), dragStep := num 2, lastPointer := 0,
          isDragging := true, timerPending := false, destroyed := false }).1.ratio
        = num (3/5) ∧
      clampSpec (num ((1/2 : ℚ) + ((0:ℚ) - 10) / 100)) = num (2/5) ∧
      (num ((3:ℚ)/5) : JSNum) ≠ num (2/5)) ∧
    ((dispatch ⟨true, 50, true, true, 1⟩ ⟨10, 10, 100, 300, 0⟩ (.move 10)
        { ratio := num (1/2), dragStep := num 2, lastPointer := 0,
          isDragging := true, timerPending := false, destroyed := false }).1.ratio
        = num 1 ∧
      (num (1:ℚ) : JSNum) ≠ num (1/2)) := by
  refine ⟨⟨?_, ?_, ?_⟩, ?_, ?_⟩
  · norm_num [dispatch, handleMove, clampAndApply, applyPosition, jsClamp01,
      num_sub_num, HSub.hSub, Sub.sub, JSNum.sub, JSNum.add, JSNum.neg,
      HDiv.hDiv, Div.div, JSNum.div, JSNum.lt]
  · rw [show ((1/2 : ℚ) + ((0:ℚ) - 10) / 100) = 2/5 by norm_num, clampSpec_num]
    norm_num
  · simp only [ne_eq, JSNum.num.injEq]
    norm_num
  · norm_num [dispatch, handleMove, clampAndApply, applyPosition, jsClamp01,
      num_sub_num, HSub.hSub, Sub.sub, JSNum.sub, JSNum.add, JSNum.neg,
      HDiv.hDiv, Div.div, JSNum.div, JSNum.lt]
  · simp only [ne_eq, JSNum.num.injEq]
    norm_num

/-- C5 (amended): during an active drag with travel = trackExtent −
thumbExtent > 0 and the thumb's DOM position consistent with the current
ratio r0 (thumbPos = r0 × travel), a pointer move from p0 to p1 yields
ratio = clamp(r0 − (p0 − p1)/travel, 0, 1), equivalently
r0 + (p1 − p0)/travel — the sign is opposite to the original claim's
formula. (When travel ≤ 0 the division is not guarded; the move can set the
ratio to 0, 1 or NaN rather than being a no-op, as the counterexample
shows.) -/
theorem c5_drag_move_amended (cfg : Config) (g : Geometry) (s : State)
    (r0 p0 p1 : ℚ)
    (hdrag : s.isDragging = true) (hdest : s.destroyed = false)
    (hr : s.ratio = num r0) (hlp : s.lastPointer = p0)
    (htravel : g.thumbSize < g.trackSize)
    (hpos : g.thumbPos = r0 * (g.trackSize - g.thumbSize)) :
    (dispatch cfg g (.move p1) s).1.ratio
      = clampSpec (num (r0 - (p0 - p1) / (g.trackSize - g.thumbSize))) := by
  have hne : g.trackSize - g.thumbSize ≠ 0 :=
    sub_ne_zero_of_ne (ne_of_gt htravel)
  have hstep : dispatch cfg g (.move p1) s
      = (if !s.destroyed && s.isDragging
          then handleMove cfg g s p1 else (s, [])) := rfl
  rw [hstep, hdest, hdrag]
  show jsClamp01 (num (g.thumbPos - (s.lastPointer - p1))
    / (num g.trackSize - num g.thumbSize)) = _
  rw [num_sub_num, num_div_num_ne_zero _ _ hne, jsClamp01_eq_clampSpec]
  congr 2
  rw [hlp, hpos]
  field_simp

/-- C5 (witness): the amended formula instantiated on travel 100, ratio 1/2,
a move from 0 to 10. -/
theorem c5_witness :
    (({ ratio := num (1/2), dragStep := num 2, lastPointer := 0,
        isDragging := true, timerPending := false,
        destroyed := false } : State).isDragging = true) ∧
    (({ ratio := num (1/2), dragStep := num 2, lastPointer := 0,
        isDragging := true, timerPending := false,
        destroyed := false } : State).destroyed = false) ∧
    ((10 : ℚ) < 110) ∧
    ((50 : ℚ) = (1/2) * (110 - 10)) ∧
    (dispatch ⟨true, 50, true, true, 1⟩ ⟨110, 10, 100, 300, 50⟩ (.move 10)
        { ratio := num (1/2), dragStep := num 2, lastPointer := 0,
          isDragging := true, timerPending := false, destroyed := false }).1.ratio
      = clampSpec (num ((1/2 : ℚ) - ((0:ℚ) - 10) / ((110:ℚ) - 10))) :=
  ⟨rfl, rfl, by norm_num, by norm_num,
   c5_drag_move_amended ⟨true, 50, true, true, 1⟩ ⟨110, 10, 100, 300, 50⟩
     { ratio := num (1/2), dragStep := num 2, lastPointer := 0,
       isDragging := true, timerPending := false, destroyed := false }
     (1/2) 0 10 rfl rfl rfl rfl (by norm_num) (by norm_num)⟩

/-- C6 (counterexample): the "in particular" clause fails at degenerate
geometry. With track extent 100, viewport extent 0 and content extent 0 we
have viewportExtent ≥ contentExtent (overflow = 0), but
`0/0 = NaN`, `Math.min(NaN, 1) = NaN`, and the written thumb extent is
`100 × NaN = NaN`, not the track extent 100. -/
theorem c6_counterexample_sizeThumb :
    (sizeThumb ⟨true, 50, true, true, 1⟩ ⟨100, 0, 0, 0, 0⟩ initialState).2
        = [Out.setThumbStyle "width" JSNum.nan] ∧
    (sizeThumb ⟨true, 50, true, true, 1⟩ ⟨100, 0, 0, 0, 0⟩ initialState).2
        ≠ [Out.setThumbStyle "width" (num 100)] := by
  have h : (sizeThumb ⟨true, 50, true, true, 1⟩ ⟨100, 0, 0, 0, 0⟩ initialState).2
      = [Out.setThumbStyle "width" JSNum.nan] := by
    norm_num [sizeThumb, jsMin, HDiv.hDiv, Div.div, JSNum.div, JSNum.lt,
      HMul.hMul, Mul.mul, JSNum.mul]
  refine ⟨h, ?_⟩
  rw [h]
  simp

/-- C6 (amended): every invocation of `sizeThumb` writes the thumb's extent
along the active axis as `trackExtent × min(viewportExtent / contentExtent,
1)` under JS number semantics, and recomputes the step size as
`trackExtent / keyboardSteps`; whenever `0 < contentExtent ≤
viewportExtent` the written extent equals the track extent (the original
claim's unrestricted `viewportExtent ≥ contentExtent` case fails at
`contentExtent = 0`, where the division yields NaN or +∞). -/
theorem c6_sizeThumb_amended (cfg : Config) (g : Geometry) (s : State) :
    (sizeThumb cfg g s).2
      = [Out.setThumbStyle (if cfg.horizontal then "width" else "height")
          (num g.trackSize * jsMin (num g.viewportSize / num g.contentSize) (num 1))] ∧
    (0 < g.contentSize → g.contentSize ≤ g.viewportSize →
      num g.trackSize * jsMin (num g.viewportSize / num g.contentSize) (num 1)
        = num g.trackSize) ∧
    (sizeThumb cfg g s).1.dragStep = num g.trackSize / num cfg.keyboardSteps := by
  refine ⟨?_, ?_, rfl⟩
  · cases hh : cfg.horizontal <;> simp [sizeThumb, hh]
  · intro hc hcv
    have hge : 1 ≤ g.viewportSize / g.contentSize := (one_le_div hc).2 hcv
    rw [num_div_num_ne_zero _ _ (ne_of_gt hc), jsMin_num_num]
    by_cases hlt : (1:ℚ) < g.viewportSize / g.contentSize
    · rw [if_pos hlt, num_mul_num, mul_one]
    · have heq : g.viewportSize / g.contentSize = 1 :=
        le_antisymm (not_lt.1 hlt) hge
      rw [if_neg hlt, heq, num_mul_num, mul_one]

/-- C6 (witness): the amended statement instantiated with track 100,
viewport 120, content 100 (content fits entirely in the viewport). -/
theorem c6_witness :
    (0 < (100:ℚ)) ∧ ((100:ℚ) ≤ 120) ∧
    ((sizeThumb ⟨true, 50, true, true, 1⟩ ⟨100, 0, 120, 100, 0⟩ initialState).2
      = [Out.setThumbStyle
          (if (⟨true, 50, true, true, 1⟩ : Config).horizontal then "width" else "height")
          (num (100:ℚ) * jsMin (num (120:ℚ) / num (100:ℚ)) (num 1))]) ∧
    (num (100:ℚ) * jsMin (num (120:ℚ) / num (100:ℚ)) (num 1) = num (100:ℚ)) ∧
    ((sizeThumb ⟨true, 50, true, true, 1⟩ ⟨100, 0, 120, 100, 0⟩ initialState).1.dragStep
      = num (100:ℚ) / num ((⟨true, 50, true, true, 1⟩ : Config).keyboardSteps)) :=
  ⟨by norm_num, by norm_num,
   (c6_sizeThumb_amended ⟨true, 50, true, true, 1⟩ ⟨100, 0, 120, 100, 0⟩ initialState).1,
   (c6_sizeThumb_amended ⟨true, 50, true, true, 1⟩ ⟨100, 0, 120, 100, 0⟩
      initialState).2.1 (by norm_num) (by norm_num),
   (c6_sizeThumb_amended ⟨true, 50, true, true, 1⟩ ⟨100, 0, 120, 100, 0⟩ initialState).2.2⟩

/-- C7: key handling on a live (non-destroyed) instance. The axis-dependent
back-step key (Left when horizontal, Up when vertical) subtracts
`dragStep / travel` from the ratio and the forward-step key (Right/Down)
adds it; Home assigns exactly 0 and End exactly 1 regardless of the current
value; each of the four runs exactly one clamp+apply cycle (output =
preventDefault followed by one applyPosition trace of the clamped state);
every other key leaves the state unchanged and emits nothing. -/
theorem c7_handleKey_spec (cfg : Config) (g : Geometry) (s : State)
    (hd : s.destroyed = false) :
    (dispatch cfg g (.key (if cfg.horizontal then "ArrowLeft" else "ArrowUp")) s
        = ((clampAndApply cfg g
              { s with ratio := s.ratio - s.dragStep / (num g.trackSize - num g.thumbSize) }).1,
           Out.preventDefault :: (clampAndApply cfg g
              { s with ratio := s.ratio - s.dragStep / (num g.trackSize - num g.thumbSize) }).2)) ∧
    (dispatch cfg g (.key (if cfg.horizontal then "ArrowRight" else "ArrowDown")) s
        = ((clampAndApply cfg g
              { s with ratio := s.ratio + s.dragStep / (num g.trackSize - num g.thumbSize) }).1,
           Out.preventDefault :: (clampAndApply cfg g
              { s with ratio := s.ratio + s.dragStep / (num g.trackSize - num g.thumbSize) }).2)) ∧
    ((dispatch cfg g (.key "Home") s).1.ratio = num 0 ∧
     dispatch cfg g (.key "Home") s
        = ((clampAndApply cfg g { s with ratio := num 0 }).1,
           Out.preventDefault :: (clampAndApply cfg g { s with ratio := num 0 }).2)) ∧
    ((dispatch cfg g (.key "End") s).1.ratio = num 1 ∧
     dispatch cfg g (.key "End") s
        = ((clampAndApply cfg g { s with ratio := num 1 }).1,
           Out.preventDefault :: (clampAndApply cfg g { s with ratio := num 1 }).2)) ∧
    (∀ k : String,
        k ≠ (if cfg.horizontal then "ArrowLeft" else "ArrowUp") →
        k ≠ (if cfg.horizontal then "ArrowRight" else "ArrowDown") →
        k ≠ "Home" → k ≠ "End" →
        dispatch cfg g (.key k) s = (s, [])) := by
  have hgate : ∀ k : String, dispatch cfg g (.key k) s = handleKey cfg g s k := by
    intro k
    show (if s.destroyed then (s, []) else handleKey cfg g s k) = handleKey cfg g s k
    rw [hd]
    rfl
  refine ⟨?_, ?_, ⟨?_, ?_⟩, ⟨?_, ?_⟩, ?_⟩
  · rw [hgate]
    cases hh : cfg.horizontal <;> simp [handleKey, hh]
  · rw [hgate]
    cases hh : cfg.horizontal <;> simp [handleKey, hh]
  · rw [hgate]
    cases hh : cfg.horizontal <;> simp [handleKey, hh, clampAndApply_fst] <;> rfl
  · rw [hgate]
    cases hh : cfg.horizontal <;> simp [handleKey, hh]
  · rw [hgate]
    cases hh : cfg.horizontal <;> simp [handleKey, hh, clampAndApply_fst] <;> rfl
  · rw [hgate]
    cases hh : cfg.horizontal <;> simp [handleKey, hh]
  · intro k h1 h2 h3 h4
    rw [hgate]
    simp only [handleKey]
    rw [if_neg h1, if_neg h2, if_neg h3, if_neg h4]

/-- C7 (witness): the key specification instantiated on a live horizontal
instance — Home yields exactly 0, End exactly 1 (from a current ratio of
1/2), and an unrecognized key ("a") is a complete no-op. -/
theorem c7_witness :
    (({ ratio := num (1/2), dragStep := num 4, lastPointer := 0,
        isDragging := false, timerPending := false,
        destroyed := false } : State).destroyed = false) ∧
    ((dispatch ⟨true, 50, true, true, 1⟩ ⟨200, 20, 100, 300, 0⟩ (.key "Home")
        { ratio := num (1/2), dragStep := num 4, lastPointer := 0,
          isDragging := false, timerPending := false,
          destroyed := false }).1.ratio = num 0) ∧
    ((dispatch ⟨true, 50, true, true, 1⟩ ⟨200, 20, 100, 300, 0⟩ (.key "End")
        { ratio := num (1/2), dragStep := num 4, lastPointer := 0,
          isDragging := false, timerPending := false,
          destroyed := false }).1.ratio = num 1) ∧
    (dispatch ⟨true, 50, true, true, 1⟩ ⟨200, 20, 100, 300, 0⟩ (.key "a")
        { ratio := num (1/2), dragStep := num 4, lastPointer := 0,
          isDragging := false, timerPending := false, destroyed := false }
      = ({ ratio := num (1/2), dragStep := num 4, lastPointer := 0,
           isDragging := false, timerPending := false,
           destroyed := false }, [])) :=
  ⟨rfl,
   (c7_handleKey_spec ⟨true, 50, true, true, 1⟩ ⟨200, 20, 100, 300, 0⟩
      { ratio := num (1/2), dragStep := num 4, lastPointer := 0,
        isDragging := false, timerPending := false, destroyed := false }
      rfl).2.2.1.1,
   (c7_handleKey_spec ⟨true, 50, true, true, 1⟩ ⟨200, 20, 100, 300, 0⟩
      { ratio := num (1/2), dragStep := num 4, lastPointer := 0,
        isDragging := false, timerPending := false, destroyed := false }
      rfl).2.2.2.1.1,
   (c7_handleKey_spec ⟨true, 50, true, true, 1⟩ ⟨200, 20, 100, 300, 0⟩
      { ratio := num (1/2), dragStep := num 4, lastPointer := 0,
        isDragging := false, timerPending := false, destroyed := false }
      rfl).2.2.2.2 "a" (by decide) (by decide) (by decide) (by decide)⟩

/-- C8 (counterexample): after `destroy()`, public operations invoked
directly on the instance still perform DOM reads and writes — `scrollTo`
emits its full style/attribute write trace on a destroyed instance, because
only the event listeners were detached, not the public methods. -/
theorem c8_counterexample_scrollTo_after_destroy :
    (dispatch ⟨true, 50, true, true, 1⟩ ⟨200, 20, 100, 300, 0⟩
      (.scrollTo (num (1/2)))
      (destroy ⟨true, 50, true, true, 1⟩ initialState).1).2 ≠ [] := by
  show (applyPosition ⟨true, 50, true, true, 1⟩ ⟨200, 20, 100, 300, 0⟩ _).2 ≠ []
  rw [applyPosition_snd]
  simp

/-- C8 (amended): `destroy()` is idempotent — a second (or any repeated)
call returns without error and performs no side effects at all, in
particular no duplicate listener removal — and after `destroy()` no
event-driven handler (pointer press/move/release, keyboard, track click,
resize, debounce-timer fire) performs any work: each such event leaves the
state unchanged and emits nothing. Directly invoked public methods such as
`scrollTo` are not blocked, however, and still read and write the DOM (see
the counterexample). -/
theorem c8_destroy_amended (cfg : Config) (s : State) :
    destroy cfg (destroy cfg s).1 = ((destroy cfg s).1, []) ∧
    (∀ (g : Geometry) (e : Event), eventDriven e = true →
      dispatch cfg g e (destroy cfg s).1 = ((destroy cfg s).1, [])) := by
  have hdd : ∀ s' : State, s'.destroyed = true → destroy cfg s' = (s', []) := by
    intro s' h
    simp [destroy, h]
  have hd : (destroy cfg s).1.destroyed = true := by
    cases h : s.destroyed <;> simp [destroy, h]
  constructor
  · exact hdd _ hd
  · intro g e he
    cases e <;> simp_all [dispatch, eventDriven, destroy, hd]

/-- C8 (witness): idempotence and dead-handler behaviour instantiated on a
fresh instance, with a pointer-press event after destroy. -/
theorem c8_witness :
    (destroy ⟨true, 50, true, true, 1⟩
        (destroy ⟨true, 50, true, true, 1⟩ initialState).1
      = ((destroy ⟨true, 50, true, true, 1⟩ initialState).1, [])) ∧
    (eventDriven (.down 3) = true) ∧
    (dispatch ⟨true, 50, true, true, 1⟩ ⟨200, 20, 100, 300, 0⟩ (.down 3)
        (destroy ⟨true, 50, true, true, 1⟩ initialState).1
      = ((destroy ⟨true, 50, true, true, 1⟩ initialState).1, [])) :=
  ⟨(c8_destroy_amended ⟨true, 50, true, true, 1⟩ initialState).1,
   by decide,
   (c8_destroy_amended ⟨true, 50, true, true, 1⟩ initialState).2
     ⟨200, 20, 100, 300, 0⟩ (.down 3) (by decide)⟩

theorem handleKey_isDragging (cfg : Config) (g : Geometry) (s : State)
    (k : String) : (handleKey cfg g s k).1.isDragging = s.isDragging := by
  simp only [handleKey]
  split_ifs <;> rfl

/-- C9 (counterexample): `destroy()` during an active drag does not reset
the drag flag: press then destroy leaves `isDragging = true` on a destroyed
instance, contradicting the claim that it is false in every state after
`destroy()`. -/
theorem c9_counterexample_destroy_during_drag :
    (runEvents ⟨true, 50, true, true, 1⟩
        (construct ⟨true, 50, true, true, 1⟩ ⟨200, 20, 100, 300, 0⟩).1
        [(⟨200, 20, 100, 300, 0⟩, .down 0),
         (⟨200, 20, 100, 300, 0⟩, .destroy)]).isDragging = true ∧
    (runEvents ⟨true, 50, true, true, 1⟩
        (construct ⟨true, 50, true, true, 1⟩ ⟨200, 20, 100, 300, 0⟩).1
        [(⟨200, 20, 100, 300, 0⟩, .down 0),
         (⟨200, 20, 100, 300, 0⟩, .destroy)]).destroyed = true := by
  constructor <;> decide

/-- C9 (amended): `isDragging` is false at construction, becomes true when
a press is handled (instance not destroyed), becomes false when a release
is handled while dragging (instance not destroyed), and is left unchanged
by every other operation — in particular `destroy()` does not reset it, so
it can remain true forever if `destroy()` happens during an active drag. -/
theorem c9_isDragging_amended (cfg : Config) (g0 g : Geometry) (s : State) :
    (construct cfg g0).1.isDragging = false ∧
    (∀ p : ℚ, (dispatch cfg g (.down p) s).1.isDragging
        = (!s.destroyed || s.isDragging)) ∧
    ((dispatch cfg g .up s).1.isDragging = (s.destroyed && s.isDragging)) ∧
    (∀ e : Event, (∀ p : ℚ, e ≠ .down p) → e ≠ .up →
      (dispatch cfg g e s).1.isDragging = s.isDragging) := by
  refine ⟨rfl, ?_, ?_, ?_⟩
  · intro p
    show (if s.destroyed then (s, []) else handleDown s p).1.isDragging
      = (!s.destroyed || s.isDragging)
    cases hd : s.destroyed <;> rfl
  · show (if !s.destroyed && s.isDragging then handleUp s else (s, [])).1.isDragging
      = (s.destroyed && s.isDragging)
    cases hd : s.destroyed <;> cases hdr : s.isDragging <;>
      first | rfl | exact hdr
  · intro e hnd hnu
    cases e with
    | down p => exact absurd rfl (hnd p)
    | up => exact absurd rfl hnu
    | scrollTo r => rfl
    | scrollToOffset x => rfl
    | update => rfl
    | focus => rfl
    | destroy =>
        show (destroy cfg s).1.isDragging = s.isDragging
        simp only [destroy]
        cases hd : s.destroyed <;> rfl
    | move p =>
        show (if !s.destroyed && s.isDragging
            then handleMove cfg g s p else (s, [])).1.isDragging = s.isDragging
        cases hd : s.destroyed <;> cases hdr : s.isDragging <;>
          first | rfl | exact hdr
    | key k =>
        show (if s.destroyed then (s, []) else handleKey cfg g s k).1.isDragging
          = s.isDragging
        cases hd : s.destroyed
        · exact handleKey_isDragging cfg g s k
        · rfl
    | trackClick onThumb pos =>
        show (if s.destroyed || !cfg.trackClick then (s, [])
            else handleTrackClick cfg g s onThumb pos).1.isDragging = s.isDragging
        cases hd : s.destroyed
        · cases hc : cfg.trackClick
          · rfl
          · show (handleTrackClick cfg g s onThumb pos).1.isDragging = s.isDragging
            simp only [handleTrackClick]
            cases ht : onThumb <;> rfl
        · rfl
    | resize =>
        show (if s.destroyed || !cfg.autoResize then (s, [])
            else handleResize s).1.isDragging = s.isDragging
        cases hd : s.destroyed
        · cases ha : cfg.autoResize <;> rfl
        · rfl
    | resizeFire =>
        show (if s.destroyed || !s.timerPending then (s, [])
            else resizeTimerFire cfg g s).1.isDragging = s.isDragging
        cases hd : s.destroyed
        · cases ht : s.timerPending <;> rfl
        · rfl

/-- C9 (witness): the characterization instantiated on a live dragging
state with a press, a release, and an `update` as the unchanged case. -/
theorem c9_witness :
    ((construct ⟨true, 50, true, true, 1⟩ ⟨200, 20, 100, 300, 0⟩).1.isDragging
        = false) ∧
    ((dispatch ⟨true, 50, true, true, 1⟩ ⟨200, 20, 100, 300, 0⟩ (.down 5)
        initialState).1.isDragging
      = (!initialState.destroyed || initialState.isDragging)) ∧
    ((dispatch ⟨true, 50, true, true, 1⟩ ⟨200, 20, 100, 300, 0⟩ .up
        initialState).1.isDragging
      = (initialState.destroyed && initialState.isDragging)) ∧
    ((dispatch ⟨true, 50, true, true, 1⟩ ⟨200, 20, 100, 300, 0⟩ .update
        initialState).1.isDragging = initialState.isDragging) :=
  ⟨(c9_isDragging_amended ⟨true, 50, true, true, 1⟩ ⟨200, 20, 100, 300, 0⟩
      ⟨200, 20, 100, 300, 0⟩ initialState).1,
   (c9_isDragging_amended ⟨true, 50, true, true, 1⟩ ⟨200, 20, 100, 300, 0⟩
      ⟨200, 20, 100, 300, 0⟩ initialState).2.1 5,
   (c9_isDragging_amended ⟨true, 50, true, true, 1⟩ ⟨200, 20, 100, 300, 0⟩
      ⟨200, 20, 100, 300, 0⟩ initialState).2.2.1,
   (c9_isDragging_amended ⟨true, 50, true, true, 1⟩ ⟨200, 20, 100, 300, 0⟩
      ⟨200, 20, 100, 300, 0⟩ initialState).2.2.2 .update
     (by intro p; simp) (by simp)⟩

/-- C10: content extent is measured exclusively from the first content
element. For any two configurations that agree on the scalar geometry and
on the FIRST content element's size — whatever the remaining elements are —
`sizeThumb` (thumb extent and step size) and the content pixel position
written to all elements are identical; and when the content option resolves
to an empty list, `sizeThumb`'s measurement and construction itself (which
invokes `sizeThumb` from `init`) throw on the missing first element instead
of being guarded. -/
theorem c10_content_first_element (cfg : Config) :
    (∀ (t th v tp c : ℚ) (rest rest' : List ℚ) (s : State) (r : JSNum),
        sizeThumbE cfg ⟨t, th, v, tp, c :: rest⟩ s
          = sizeThumbE cfg ⟨t, th, v, tp, c :: rest'⟩ s ∧
        contentPosE ⟨t, th, v, tp, c :: rest⟩ r
          = contentPosE ⟨t, th, v, tp, c :: rest'⟩ r) ∧
    (∀ (t th v tp : ℚ) (s : State),
        (∃ msg, constructE cfg ⟨t, th, v, tp, []⟩ = .error msg) ∧
        (∃ msg, sizeThumbE cfg ⟨t, th, v, tp, []⟩ s = .error msg)) :=
  ⟨fun _ _ _ _ _ _ _ _ _ => ⟨rfl, rfl⟩,
   fun _ _ _ _ _ => ⟨⟨_, rfl⟩, ⟨_, rfl⟩⟩⟩
